import Mathlib

/-!
Shallow embedding of the zone-extraction pipeline of the
`thermal-image-processing` repository (files `tiprocessing/IRUtils.py` and
`tiprocessing/AnalyzeIRData.py`), together with theorems settling the
specification claims about it.

Modelling conventions:
* Python list/string slices `l[a:b]` are modelled by `pySlice` with full
  Python endpoint semantics (negative indices count from the end, endpoints
  clip to the list's length).
* A Python expression that can raise (an out-of-range index, a failed
  `list.index` lookup, a missing dict key, iterating a non-iterable) is
  modelled in the `Option` monad; `none` means the corresponding exception.
* CSV cell values are modelled as exact rationals `ℚ` (idealising IEEE
  doubles); an empty CSV cell (pandas `NaN`) is `Option ℚ`s `none`.
* `np.std` is `Real.sqrt` of the population variance; since squaring is
  injective on nonnegative reals, the embedding carries the population
  variance (denominator `N`) in the third component of every statistics
  triple, written `npStdSq`.  Equality of std values is equivalent to
  equality of these variances.
* The statistics of an empty region (`np.median([])`, `np.mean([])`) are
  `NaN` in numpy; the embedding returns `none` for them.
-/

namespace IRUtils

/-- Python slice-endpoint resolution for `l[a:b]` (step 1): a negative
endpoint counts from the end of the list and is clamped below by `0`; a
nonnegative endpoint is clamped above by the list length. -/
def pyBound (len : Nat) (a : Int) : Nat :=
  if a < 0 then ((len : Int) + a).toNat else min a.toNat len

/-- Python list slice `l[a:b]` (step 1), with Python's clipping semantics. -/
def pySlice {α : Type} (l : List α) (a b : Int) : List α :=
  (l.take (pyBound l.length b)).drop (pyBound l.length a)

/-- Python string slice `s[a:b]`, as `pySlice` on the character list. -/
def pyStrSlice (s : String) (a b : Int) : String :=
  String.mk (pySlice s.data a b)

/-- Source function `getFileInfo` (IRUtils.py, lines 434-467): fixed-offset substring
extraction from a filename, `date = filename[10:18]`,
`time = filename[-12:-4]`, `folder = filename[19:27]`,
`filenumber = filename[28:31]`, returned in the order
(date, time, folder, filenumber) as in the source. -/
def getFileInfo (filename : String) : String × String × String × String :=
  (pyStrSlice filename 10 18, pyStrSlice filename (-12) (-4),
   pyStrSlice filename 19 27, pyStrSlice filename 28 31)

/-- Sequential `Option`-valued map over a list, modelling a Python loop that
stops at the first raised exception: the result is `none` as soon as one
element fails. -/
def optMap {α β : Type} (f : α → Option β) : List α → Option (List β)
  | [] => some []
  | a :: as =>
    match f a, optMap f as with
    | some b, some bs => some (b :: bs)
    | _, _ => none

/-- Python `list.index` on a list of strings: linear scan returning the index
of the first match, `none` (a raised `ValueError`, the spec's "value not
found" `LookupError`) when the value does not occur. -/
def pyIndex (l : List String) (x : String) : Option Nat :=
  match l with
  | [] => none
  | a :: as => if a = x then some 0 else (pyIndex as x).map (· + 1)

/-- A calibration-table cell value as Python holds it: the `measurement`
column keeps raw strings, but a caller could in principle supply integers;
`getIRDataFromMultipleZones` re-applies `str` to every entry. -/
inductive PyVal : Type
  | pstr : String → PyVal
  | pint : Int → PyVal
deriving DecidableEq

/-- Python `str` applied to a `PyVal`. -/
def pyStr : PyVal → String
  | .pstr s => s
  | .pint n => toString n

/-- The calibration lookup structure returned by `getPositionInformation`
(IRUtils.py, lines 400-431): the `measurement` column as a list, and every
other column (`<zone>_row_start`, `<zone>_row_end`, `<zone>_col_start`,
`<zone>_col_end`) as a list of integers, keyed by column name. -/
structure Positions : Type where
  measurement : List PyVal
  cols : List (String × List Int)
deriving DecidableEq

/-- Python `positions[key][iod]` for an integer column of the calibration
dict: `none` models a `KeyError` (missing column) or `IndexError` (row index
out of range). -/
def posVal (pos : Positions) (key : String) (iod : Nat) : Option Int :=
  (pos.cols.lookup key).bind (fun l => l[iod]?)

end IRUtils

namespace IRUtils

/-- Sorted copy of a list of rationals, ascending, as numpy's sort used by
`np.median` produces. -/
def npSorted (xs : List ℚ) : List ℚ :=
  xs.insertionSort (· ≤ ·)

/-- Numpy median `np.median` on a flattened nonempty list: the middle element of the
sorted list for odd length, the average of the two middle elements for even
length. -/
def npMedian (xs : List ℚ) : ℚ :=
  if xs.length % 2 = 1 then (npSorted xs).getD (xs.length / 2) 0
  else ((npSorted xs).getD (xs.length / 2 - 1) 0
        + (npSorted xs).getD (xs.length / 2) 0) / 2

/-- Numpy mean `np.mean`: arithmetic mean, sum divided by the number of
elements. -/
def npMean (xs : List ℚ) : ℚ :=
  xs.sum / (xs.length : ℚ)

/-- The square of `np.std` with its default `ddof=0`: the population
variance, mean of squared deviations with denominator `N` (not `N - 1`). -/
def npStdSq (xs : List ℚ) : ℚ :=
  ((xs.map (fun x => (x - npMean xs) ^ 2)).sum) / (xs.length : ℚ)

/-- The triple `(np.median roi, np.mean roi, np.std roi)` over a flattened
region, the third component carried as its square (population variance);
`none` models numpy's `NaN` results on an empty region. -/
def npStats (xs : List ℚ) : Option (ℚ × ℚ × ℚ) :=
  if xs.isEmpty then none else some (npMedian xs, npMean xs, npStdSq xs)

/-- Source function `getIRDataFromZone` (IRUtils.py, lines 364-397): reads
the four edge
values of the zone from the calibration dict at row `iod`, slices the image
with numpy basic slicing `np.array(image)[edges[0]:edges[1],
edges[2]:edges[3]]` (per-axis Python slice semantics on a rectangular grid),
and returns the median/mean/std triple of the region. -/
def getIRDataFromZone (image : List (List ℚ)) (pos : Positions)
    (zone_name : String) (iod : Nat) : Option (ℚ × ℚ × ℚ) := do
  let r0 ← posVal pos (zone_name ++ "_row_start") iod
  let r1 ← posVal pos (zone_name ++ "_row_end") iod
  let c0 ← posVal pos (zone_name ++ "_col_start") iod
  let c1 ← posVal pos (zone_name ++ "_col_end") iod
  let roi := (pySlice image r0 r1).map (fun row => pySlice row c0 c1)
  npStats roi.flatten

/-- The content transformation of `rotateCSVFile180` (IRUtils.py, lines
282-303): `[[csvcontent[i][j] for j in reversed(range(len(csvcontent[0])))]
for i in reversed(range(len(csvcontent)))]`.  Note the inner loop always runs
over the length of the FIRST row; accessing `csvcontent[i][j]` on a row
shorter than the first raises `IndexError`, modelled by `none`. -/
def rotateCSVFile180 {α : Type} (csvcontent : List (List α)) :
    Option (List (List α)) :=
  optMap (fun row => optMap (fun j => row[j]?)
            (List.range (csvcontent.headD []).length).reverse)
    csvcontent.reverse

/-- The column indices `pandas.DataFrame.dropna(axis=1, how='all')` keeps on
a parsed grid: those (within the frame's column count, the length of the
first row) at which at least one row holds a non-empty cell. -/
def keptCols (g : List (List (Option ℚ))) : List Nat :=
  (List.range (g.headD []).length).filter
    (fun j => g.any (fun row => (row.getD j none).isSome))

/-- Pandas `df.dropna(axis=1, how='all')` (IRUtils.py, line 332): drop every
column
that is empty (`NaN`) across all rows, keeping the remaining columns in
order. -/
def dropAllEmptyCols (g : List (List (Option ℚ))) : List (List (Option ℚ)) :=
  g.map (fun row => (keptCols g).map (fun j => row.getD j none))

/-- Pandas `df.values.tolist()` on a frame expected to be fully numeric:
succeeds
with the numeric grid when no empty cell remains, `none` when a `NaN`
survives (the statistics would then be `NaN`-poisoned, undefined in this
embedding). -/
def toNumeric (g : List (List (Option ℚ))) : Option (List (List ℚ)) :=
  optMap (fun row => optMap id row) g

/-- A value of one field of the aggregate record dict built by
`getIRDataFromMultipleZones`: identity fields are strings, statistic fields
are (singleton lists holding) rationals. -/
inductive RVal : Type
  | s : String → RVal
  | q : ℚ → RVal
deriving DecidableEq

/-- One aggregate record: the Python dict as an insertion-ordered
association list. -/
abbrev IRRecord : Type := List (String × RVal)

/-- The `zone_list` argument of `getIRDataFromMultipleZones` as a Python
caller can supply it: the documented list of zone names, or (as
`AnalyzeIRData.py` actually passes) the plain integer `numberOfZones`. -/
inductive ZoneArg : Type
  | names : List String → ZoneArg
  | count : Nat → ZoneArg
deriving DecidableEq

/-- Python loop header `for zone in zone_list`: iterating a list of names
yields the names;
iterating an integer raises `TypeError`, modelled by `none`. -/
def iterZones : ZoneArg → Option (List String)
  | .names l => some l
  | .count _ => none

/-- The in-place update `positions["measurement"] = [str(x) for x in
positions["measurement"]]` performed by `getIRDataFromMultipleZones` (line
328). -/
def updatedPositions (pos : Positions) : Positions :=
  { pos with measurement := pos.measurement.map (fun v => PyVal.pstr (pyStr v)) }

/-- The calibration-row lookup `positions["measurement"].index(date)` (line
329) for the date decoded from the filename. -/
def lookupIod (pos : Positions) (filename : String) : Option Nat :=
  pyIndex (pos.measurement.map pyStr) (getFileInfo filename).1

/-- The grid as `getIRDataFromMultipleZones` sees it after
`pd.read_csv` + `dropna(axis=1, how='all')` + `df.values.tolist()`
(lines 331-332, 352): all-empty columns dropped, remaining cells numeric. -/
def processedImage (grid : List (List (Option ℚ))) :
    Option (List (List ℚ)) :=
  toNumeric (dropAllEmptyCols grid)

/-- The three statistic entries one zone contributes to the record dict,
under the keys `"ir_" + zone + "_med"`, `"ir_" + zone + "_mean"`,
`"ir_" + zone + "_std"` (lines 356-358). -/
def zoneEntries (zone : String) (t : ℚ × ℚ × ℚ) : IRRecord :=
  [("ir_" ++ zone ++ "_med", RVal.q t.1),
   ("ir_" ++ zone ++ "_mean", RVal.q t.2.1),
   ("ir_" ++ zone ++ "_std", RVal.q t.2.2)]

/-- Source function `getIRDataFromMultipleZones` (IRUtils.py, lines
306-361), with the file
I/O replaced by its parsed inputs: `filename` is the basename of `csvpath`
and `grid` the parsed CSV content.  Decodes the file identity, re-stringifies
and looks up the `measurement` column, loads and cleans the grid, computes
the per-zone statistics for each supplied zone, and builds the record dict in
insertion order.  The second component of the result is the calibration dict
after the call (the function mutates `positions["measurement"]` in place);
the first is `none` when any step raises. -/
def getIRDataFromMultipleZones (filename : String)
    (grid : List (List (Option ℚ))) (pos : Positions) (zones : ZoneArg) :
    Option IRRecord × Positions :=
  let pos' := updatedPositions pos
  let rec? : Option IRRecord := do
    let iod ← lookupIod pos filename
    let image ← processedImage grid
    let zl ← iterZones zones
    let statEntries ← optMap (fun zone => do
      let t ← getIRDataFromZone image pos' zone iod
      pure (zoneEntries zone t)) zl
    pure ([("ir_date", RVal.s (getFileInfo filename).1),
           ("ir_time", RVal.s (getFileInfo filename).2.1),
           ("ir_folder", RVal.s (getFileInfo filename).2.2.1),
           ("ir_filenumber", RVal.s (getFileInfo filename).2.2.2)]
          ++ statEntries.flatten)
  (rec?, pos')

/-- The batch loop of `AnalyzeIRData.py` (lines 15-25): process the frame
files in enumeration order with `getIRDataFromMultipleZones(csvfile,
positions, numberOfZones)` — note the third argument is the integer zone
count, not a list of zone names — appending each record; the shared
calibration dict is threaded through the calls.  `none` models the batch
aborting on the first raised exception. -/
def analyzeIRDataBatch (files : List (String × List (List (Option ℚ))))
    (pos : Positions) (numberOfZones : Nat) : Option (List IRRecord) :=
  match files with
  | [] => some []
  | f :: rest =>
    match getIRDataFromMultipleZones f.1 f.2 pos (ZoneArg.count numberOfZones) with
    | (some r, pos') =>
      (analyzeIRDataBatch rest pos' numberOfZones).map (r :: ·)
    | (none, _) => none

/-- The batch loop as documented (spec §4.5 and the docstring of
`getIRDataFromMultipleZones`): identical to `analyzeIRDataBatch` except that
the zone argument is the documented list of zone names. -/
def analyzeIRDataBatchNamed (files : List (String × List (List (Option ℚ))))
    (pos : Positions) (zl : List String) : Option (List IRRecord) :=
  match files with
  | [] => some []
  | f :: rest =>
    match getIRDataFromMultipleZones f.1 f.2 pos (ZoneArg.names zl) with
    | (some r, pos') =>
      (analyzeIRDataBatchNamed rest pos' zl).map (r :: ·)
    | (none, _) => none

end IRUtils

namespace IRSpec

open IRUtils

/-- Modelled from the spec's words (§4.4, §8): the exact sub-rectangle of the
grid selected by `[row_start:row_end, col_start:col_end]`, end-exclusive,
row-major, top-left origin — the cells at row indices `row_start ≤ i <
row_end` and column indices `col_start ≤ j < col_end`. -/
def specSubRect (image : List (List ℚ)) (r0 r1 c0 c1 : Nat) :
    List (List ℚ) :=
  (List.range' r0 (r1 - r0)).map (fun i =>
    (List.range' c0 (c1 - c0)).map (fun j => (image.getD i []).getD j 0))

/-- Modelled from the claim's words (C10): the intersection of the requested
rectangle with the grid — the requested index rectangle with each side
clipped to the grid's boundary. -/
def specClipRect (image : List (List ℚ)) (r0 r1 c0 c1 : Nat) :
    List (List ℚ) :=
  (List.range' (min r0 image.length)
      (min r1 image.length - min r0 image.length)).map (fun i =>
    (List.range' (min c0 (image.getD i []).length)
        (min c1 (image.getD i []).length - min c0 (image.getD i []).length)).map
      (fun j => (image.getD i []).getD j 0))

end IRSpec

namespace IRUtils

/-- A concrete 2x2 all-fives numeric grid, used by the concrete witness
theorems. -/
def cImage : List (List ℚ) := [[5, 5], [5, 5]]

/-- The concrete 2x2 grid as parsed CSV cells (no empty cell). -/
def cGrid : List (List (Option ℚ)) :=
  [[some 5, some 5], [some 5, some 5]]

/-- A concrete one-row calibration table: measurement date `20170815`, one
zone `zone1` with bounds `[0:2, 0:2]`. -/
def cPos : Positions :=
  { measurement := [PyVal.pstr "20170815"],
    cols := [("zone1_row_start", [0]), ("zone1_row_end", [2]),
             ("zone1_col_start", [0]), ("zone1_col_end", [2])] }

/-- A concrete one-row calibration table whose `zone1` bounds `[0:5, 0:7]`
overrun a 2x2 grid. -/
def cPosBig : Positions :=
  { measurement := [PyVal.pstr "20170815"],
    cols := [("zone1_row_start", [0]), ("zone1_row_end", [5]),
             ("zone1_col_start", [0]), ("zone1_col_end", [7])] }

/-- The example frame filename from the spec. -/
def cName : String := "ir_export_20170815_P0000004_005_10-50-08.csv"

/-- A frame filename whose decoded date `20170816` is absent from `cPos`. -/
def cNameAbsent : String := "ir_export_20170816_P0000004_005_10-50-08.csv"

end IRUtils

namespace IRUtils

/-- Evaluating `pyBound` on a natural endpoint is plain clamping by the
length. -/
theorem pyBound_natCast (len a : Nat) : pyBound len (a : Int) = min a len := by
  rw [pyBound, if_neg (by simp), Int.toNat_natCast]

/-- A Python slice with natural endpoints lists exactly the elements at the
clipped index range `[min a len, min b len)`. -/
theorem pySlice_natCast {α : Type} (l : List α) (d : α) (a b : Nat) :
    pySlice l (a : Int) (b : Int)
      = (List.range' (min a l.length) (min b l.length - min a l.length)).map
          (fun i => l.getD i d) := by
  rw [pySlice, pyBound_natCast, pyBound_natCast]
  apply List.ext_getElem
  · simp [List.length_drop, List.length_take, List.length_range']
  · intro n h1 h2
    have hlen : n < min b l.length - min a l.length := by
      simpa [List.length_range'] using h2
    have hbound : min a l.length + n < l.length := by omega
    have hbound2 : min a l.length + n < min b l.length := by omega
    rw [List.getElem_drop, List.getElem_take, List.getElem_map,
      List.getElem_range', List.getD_eq_getElem l d
        (by simpa using hbound)]
    simp

/-- The region of interest sliced by `getIRDataFromZone` with natural edge
values is exactly the requested index rectangle clipped to the grid. -/
theorem roi_eq_specClipRect (image : List (List ℚ)) (r0 r1 c0 c1 : Nat) :
    (pySlice image (r0 : Int) (r1 : Int)).map
        (fun row => pySlice row (c0 : Int) (c1 : Int))
      = IRSpec.specClipRect image r0 r1 c0 c1 := by
  rw [pySlice_natCast image ([] : List ℚ) r0 r1, List.map_map]
  unfold IRSpec.specClipRect
  apply List.map_congr_left
  intro i _
  simp only [Function.comp]
  rw [pySlice_natCast (image.getD i []) (0 : ℚ) c0 c1]

/-- For in-range bounds on a rectangular grid, clipping is the identity:
the clipped rectangle is the exact requested sub-rectangle. -/
theorem specClipRect_eq_specSubRect (image : List (List ℚ)) (w : Nat)
    (hw : ∀ row ∈ image, row.length = w)
    (r0 r1 c0 c1 : Nat) (hr01 : r0 ≤ r1) (hr1 : r1 ≤ image.length)
    (hc01 : c0 ≤ c1) (hc1 : c1 ≤ w) :
    IRSpec.specClipRect image r0 r1 c0 c1
      = IRSpec.specSubRect image r0 r1 c0 c1 := by
  unfold IRSpec.specClipRect IRSpec.specSubRect
  rw [min_eq_left (le_trans hr01 hr1), min_eq_left hr1]
  apply List.map_congr_left
  intro i hi
  have hi' : i < r1 := by
    rcases List.mem_range'_1.mp hi with ⟨h1', h2'⟩
    omega
  have hilt : i < image.length := lt_of_lt_of_le hi' hr1
  have hlen : (image.getD i []).length = w := by
    rw [List.getD_eq_getElem image [] hilt]
    exact hw _ (List.getElem_mem hilt)
  rw [hlen, min_eq_left (le_trans hc01 hc1), min_eq_left hc1]

/-- Function `optMap` succeeds elementwise when every element succeeds. -/
theorem optMap_eq_some_of_forall {α β : Type} {f : α → Option β} {g : α → β}
    {l : List α} (h : ∀ a ∈ l, f a = some (g a)) :
    optMap f l = some (l.map g) := by
  induction l with
  | nil => rfl
  | cons a as ih =>
    have ha := h a (List.mem_cons_self a as)
    have hrest := ih (fun x hx => h x (List.mem_cons_of_mem a hx))
    simp [optMap, ha, hrest]

/-- Function `optMap` succeeds exactly when every element succeeds. -/
theorem optMap_isSome_iff {α β : Type} {f : α → Option β} {l : List α} :
    (optMap f l).isSome ↔ ∀ a ∈ l, (f a).isSome := by
  induction l with
  | nil => simp [optMap]
  | cons a as ih =>
    constructor
    · intro h x hx
      rcases List.mem_cons.mp hx with hxa | hxas
      · subst hxa
        cases hfa : f x with
        | none => rw [optMap, hfa] at h; simp at h
        | some b => simp
      · cases hfa : f a with
        | none => rw [optMap, hfa] at h; simp at h
        | some b =>
          rw [optMap, hfa] at h
          cases hrest : optMap f as with
          | none => rw [hrest] at h; simp at h
          | some bs => exact ih.mp (by simp [hrest]) x hxas
    · intro h
      have ha := h a (List.mem_cons_self a as)
      cases hfa : f a with
      | none => rw [hfa] at ha; simp at ha
      | some b =>
        have hrest := ih.mpr (fun x hx => h x (List.mem_cons_of_mem a hx))
        cases hrs : optMap f as with
        | none => rw [hrs] at hrest; simp at hrest
        | some bs => rw [optMap, hfa, hrs]; simp

/-- Function `optMap` only depends on the function's values on the list
members. -/
theorem optMap_congr {α β : Type} {f g : α → Option β} {l : List α}
    (h : ∀ a ∈ l, f a = g a) : optMap f l = optMap g l := by
  induction l with
  | nil => rfl
  | cons a as ih =>
    rw [optMap, optMap, h a (List.mem_cons_self a as),
      ih (fun x hx => h x (List.mem_cons_of_mem a hx))]

/-- Every member of the input of a successful `optMap` contributes a member
of the output. -/
theorem optMap_mem {α β : Type} {f : α → Option β} {l : List α}
    {bs : List β} (h : optMap f l = some bs) {a : α} (ha : a ∈ l) :
    ∃ b, f a = some b ∧ b ∈ bs := by
  induction l generalizing bs with
  | nil => cases ha
  | cons x xs ih =>
    rw [optMap] at h
    cases hfx : f x with
    | none => rw [hfx] at h; simp at h
    | some b =>
      rw [hfx] at h
      cases hrest : optMap f xs with
      | none => rw [hrest] at h; simp at h
      | some bs' =>
        rw [hrest] at h
        simp only [Option.some.injEq] at h
        subst h
        rcases List.mem_cons.mp ha with hax | haxs
        · exact ⟨b, by rw [hax, hfx], List.mem_cons_self b bs'⟩
        · obtain ⟨b', hb', hmem⟩ := ih hrest haxs
          exact ⟨b', hb', List.mem_cons_of_mem b hmem⟩

/-- C1: for every numeric grid (nested rows) and every zone whose
calibration bounds satisfy `row_start ≤ row_end ≤ grid rows` and
`col_start ≤ col_end ≤ grid columns`, `getIRDataFromZone` returns the triple
(median, arithmetic mean, population standard deviation with denominator N —
carried as its square `npStdSq`) computed over exactly the sub-rectangle
`[row_start:row_end, col_start:col_end]` of the grid (end-exclusive,
row-major, top-left origin). -/
theorem getIRDataFromZone_valid_bounds_spec
    (image : List (List ℚ)) (w : Nat) (hw : ∀ row ∈ image, row.length = w)
    (pos : Positions) (zone : String) (iod : Nat) (r0 r1 c0 c1 : Nat)
    (h1 : posVal pos (zone ++ "_row_start") iod = some (r0 : Int))
    (h2 : posVal pos (zone ++ "_row_end") iod = some (r1 : Int))
    (h3 : posVal pos (zone ++ "_col_start") iod = some (c0 : Int))
    (h4 : posVal pos (zone ++ "_col_end") iod = some (c1 : Int))
    (hr01 : r0 ≤ r1) (hr1 : r1 ≤ image.length)
    (hc01 : c0 ≤ c1) (hc1 : c1 ≤ w) :
    getIRDataFromZone image pos zone iod
      = npStats (IRSpec.specSubRect image r0 r1 c0 c1).flatten := by
  rw [getIRDataFromZone, h1, h2, h3, h4]
  simp only [Option.bind_eq_bind, Option.some_bind]
  rw [roi_eq_specClipRect,
    specClipRect_eq_specSubRect image w hw r0 r1 c0 c1 hr01 hr1 hc01 hc1]

/-- Witness for C1 at a concrete input: the 2x2 all-fives grid with zone
bounds `[0:2, 0:2]`. -/
theorem getIRDataFromZone_valid_bounds_spec_witness :
    getIRDataFromZone cImage cPos "zone1" 0
      = npStats (IRSpec.specSubRect cImage 0 2 0 2).flatten :=
  getIRDataFromZone_valid_bounds_spec cImage 2 (by decide) cPos "zone1" 0
    0 2 0 2 (by decide) (by decide) (by decide) (by decide)
    (by decide) (by decide) (by decide) (by decide)

/-- C10: for every non-empty rectangular numeric grid and any zone bounds —
including bounds exceeding the grid's dimensions — `getIRDataFromZone` does
not fail with an out-of-range error: the slice silently clips to the grid's
boundary, and the three statistics are computed over the (possibly smaller)
intersection of the requested rectangle with the grid. -/
theorem getIRDataFromZone_overscan_clips
    (image : List (List ℚ)) (w : Nat) (hne : image ≠ [])
    (hw : ∀ row ∈ image, row.length = w)
    (pos : Positions) (zone : String) (iod : Nat) (r0 r1 c0 c1 : Nat)
    (h1 : posVal pos (zone ++ "_row_start") iod = some (r0 : Int))
    (h2 : posVal pos (zone ++ "_row_end") iod = some (r1 : Int))
    (h3 : posVal pos (zone ++ "_col_start") iod = some (c0 : Int))
    (h4 : posVal pos (zone ++ "_col_end") iod = some (c1 : Int)) :
    getIRDataFromZone image pos zone iod
      = npStats (IRSpec.specClipRect image r0 r1 c0 c1).flatten := by
  rw [getIRDataFromZone, h1, h2, h3, h4]
  simp only [Option.bind_eq_bind, Option.some_bind]
  rw [roi_eq_specClipRect]

/-- Witness for C10 at a concrete input: zone bounds `[0:5, 0:7]` on the 2x2
grid. -/
theorem getIRDataFromZone_overscan_clips_witness :
    getIRDataFromZone cImage cPosBig "zone1" 0
      = npStats (IRSpec.specClipRect cImage 0 5 0 7).flatten :=
  getIRDataFromZone_overscan_clips cImage 2 (by decide) (by decide)
    cPosBig "zone1" 0 0 5 0 7 (by decide) (by decide) (by decide) (by decide)

/-- Function `pyIndex` fails exactly on absent values (Python `list.index`
raising
its "value not found" error). -/
theorem pyIndex_eq_none_iff {l : List String} {x : String} :
    pyIndex l x = none ↔ x ∉ l := by
  induction l with
  | nil => simp [pyIndex]
  | cons a as ih =>
    by_cases hax : a = x
    · subst hax
      simp [pyIndex]
    · simp [pyIndex, hax, Option.map_eq_none', ih,
        Ne.symm hax]

/-- A successful `pyIndex` returns the index of the first occurrence. -/
theorem pyIndex_first {l : List String} {x : String} {i : Nat}
    (h : pyIndex l x = some i) :
    l[i]? = some x ∧ ∀ j, j < i → l[j]? ≠ some x := by
  induction l generalizing i with
  | nil => simp [pyIndex] at h
  | cons a as ih =>
    by_cases hax : a = x
    · subst hax
      rw [pyIndex, if_pos rfl] at h
      obtain rfl : i = 0 := by simpa using h.symm
      exact ⟨by simp, fun j hj => absurd hj (Nat.not_lt_zero j)⟩
    · rw [pyIndex, if_neg hax] at h
      cases hrec : pyIndex as x with
      | none => rw [hrec] at h; simp at h
      | some i' =>
        rw [hrec] at h
        simp only [Option.map_some', Option.some.injEq] at h
        subst h
        obtain ⟨hget, hfirst⟩ := ih hrec
        refine ⟨by simpa using hget, fun j hj => ?_⟩
        match j with
        | 0 => simpa using fun hx => hax hx
        | j' + 1 =>
          have : j' < i' := Nat.lt_of_succ_lt_succ hj
          simpa using hfirst j' this

/-- C5: `getFileInfo` on the spec's example filename decodes
date `20170815`, time `10-50-08`, folder `P0000004`, filenumber `005`
(returned in source order date, time, folder, filenumber). -/
theorem getFileInfo_example :
    getFileInfo "ir_export_20170815_P0000004_005_10-50-08.csv"
      = ("20170815", "10-50-08", "P0000004", "005") := by decide

/-- Reading a full row back to front by index succeeds and reverses it. -/
theorem optMap_getElem_range_reverse {α : Type} (row : List α) :
    optMap (fun j => row[j]?) (List.range row.length).reverse
      = some row.reverse := by
  induction row using List.reverseRecOn with
  | nil => rfl
  | append_singleton xs x ih =>
    rw [List.length_append, List.length_singleton, List.range_succ,
      List.reverse_append, List.reverse_singleton]
    have hx : (xs ++ [x])[xs.length]? = some x :=
      List.getElem?_concat_length xs x
    have hcong : optMap (fun j => (xs ++ [x])[j]?) (List.range xs.length).reverse
        = optMap (fun j => xs[j]?) (List.range xs.length).reverse := by
      apply optMap_congr
      intro j hj
      have hjlt : j < xs.length := List.mem_range.mp (List.mem_reverse.mp hj)
      exact List.getElem?_append_left hjlt
    rw [List.singleton_append, optMap, hx, hcong, ih, List.reverse_concat]

/-- Reading a `w`-prefix back to front by index succeeds exactly when the
row has at least `w` cells. -/
theorem optMap_getElem_range_isSome {α : Type} (row : List α) (w : Nat) :
    (optMap (fun j => row[j]?) (List.range w).reverse).isSome
      ↔ w ≤ row.length := by
  rw [optMap_isSome_iff]
  constructor
  · intro h
    cases w with
    | zero => exact Nat.zero_le _
    | succ w' =>
      have hmem : w' ∈ (List.range (w' + 1)).reverse :=
        List.mem_reverse.mpr (List.mem_range.mpr (Nat.lt_succ_self w'))
      have := h w' hmem
      rw [Option.isSome_iff_exists] at this
      obtain ⟨a, ha⟩ := this
      obtain ⟨hlt, -⟩ := List.getElem?_eq_some_iff.mp ha
      omega
  · intro h j hj
    have hjlt : j < w := List.mem_range.mp (List.mem_reverse.mp hj)
    rw [List.getElem?_eq_getElem (by omega)]
    simp

/-- A grid whose rows all have the length of the first row rotates to the
reversed grid with each row reversed. -/
theorem rotateCSVFile180_rect {α : Type} (g : List (List α)) (w : Nat)
    (hw : ∀ row ∈ g, row.length = w) (hh : (g.headD []).length = w) :
    rotateCSVFile180 g = some (g.reverse.map List.reverse) := by
  rw [rotateCSVFile180, hh]
  apply optMap_eq_some_of_forall
  intro row hrow
  rw [← hw row (List.mem_reverse.mp hrow)]
  exact optMap_getElem_range_reverse row

/-- C2: on a rectangular grid (all rows the length of the first row),
`rotateCSVFile180` reverses the row order and the cell order in each row,
and applying it twice restores the original grid cell for cell. -/
theorem rotateCSVFile180_roundtrip (g : List (List String))
    (hrect : ∀ row ∈ g, row.length = (g.headD []).length) :
    rotateCSVFile180 g = some (g.reverse.map List.reverse)
      ∧ (rotateCSVFile180 g).bind rotateCSVFile180 = some g := by
  have h1 : rotateCSVFile180 g = some (g.reverse.map List.reverse) :=
    rotateCSVFile180_rect g (g.headD []).length hrect rfl
  refine ⟨h1, ?_⟩
  rw [h1, Option.some_bind]
  have hw1 : ∀ row ∈ g.reverse.map List.reverse,
      row.length = (g.headD []).length := by
    intro row hrow
    obtain ⟨row0, hrow0, rfl⟩ := List.mem_map.mp hrow
    rw [List.length_reverse]
    exact hrect row0 (List.mem_reverse.mp hrow0)
  have hback : (g.reverse.map List.reverse).reverse.map List.reverse = g := by
    rw [← List.map_reverse, List.reverse_reverse, List.map_map]
    have : ∀ row ∈ g, (List.reverse ∘ List.reverse) row = id row := by
      intro row _
      simp
    rw [List.map_congr_left this, List.map_id]
  cases hg : g with
  | nil =>
    subst hg
    rfl
  | cons r rs =>
    have hne1 : g.reverse.map List.reverse ≠ [] := by
      rw [hg]
      simp
    obtain ⟨h0, t0, hg1eq⟩ := List.exists_cons_of_ne_nil hne1
    have hh1 : ((g.reverse.map List.reverse).headD []).length
        = (g.headD []).length := by
      rw [hg1eq]
      exact hw1 h0 (by rw [hg1eq]; exact List.mem_cons_self h0 t0)
    rw [← hg,
      rotateCSVFile180_rect (g.reverse.map List.reverse) (g.headD []).length
        hw1 hh1, hback]

/-- Witness for C2 at a concrete input: a 2x2 grid of strings. -/
theorem rotateCSVFile180_roundtrip_witness :
    rotateCSVFile180 [["a", "b"], ["c", "d"]]
        = some [["d", "c"], ["b", "a"]]
      ∧ (rotateCSVFile180 [["a", "b"], ["c", "d"]]).bind rotateCSVFile180
        = some [["a", "b"], ["c", "d"]] := by
  have h := rotateCSVFile180_roundtrip [["a", "b"], ["c", "d"]] (by decide)
  exact ⟨h.1.trans (by decide), h.2⟩

/-- C7 counterexample: the ragged grid `[["a", "b"], ["c"]]`, whose second
row is shorter than its first, makes `rotateCSVFile180` itself raise an
`IndexError` (`none`), so raggedness does not only surface later during zone
slicing. -/
theorem rotateCSVFile180_ragged_counterexample :
    rotateCSVFile180 [["a", "b"], ["c"]] = none := by decide

/-- C7 as amended: `rotateCSVFile180` completes without an index error
exactly when every row has at least as many cells as the first row; a ragged
grid with some row shorter than the first raises an `IndexError` during
rotation itself. -/
theorem rotateCSVFile180_isSome_iff (g : List (List String)) :
    (rotateCSVFile180 g).isSome
      ↔ ∀ row ∈ g, (g.headD []).length ≤ row.length := by
  rw [rotateCSVFile180, optMap_isSome_iff]
  constructor
  · intro h row hrow
    exact (optMap_getElem_range_isSome row (g.headD []).length).mp
      (h row (List.mem_reverse.mpr hrow))
  · intro h row hrow
    exact (optMap_getElem_range_isSome row (g.headD []).length).mpr
      (h row (List.mem_reverse.mp hrow))

/-- Witness for the amended C7: a ragged grid whose rows are all at least as
long as the first row rotates without error. -/
theorem rotateCSVFile180_isSome_iff_witness :
    (rotateCSVFile180 [["a"], ["b", "c"]]).isSome :=
  (rotateCSVFile180_isSome_iff [["a"], ["b", "c"]]).mpr (by decide)

/-- C4: the calibration lookup by the file's decoded date fails (the "value
not found" failure, `none`) exactly when the date is absent from the
(re-stringified) measurement list; in that case `getIRDataFromMultipleZones`
emits no record; and a successful lookup returns the index of the first
matching row in file order. -/
theorem lookupIod_absent_spec (pos : Positions) (fname : String)
    (grid : List (List (Option ℚ))) (zones : ZoneArg) :
    (lookupIod pos fname = none
        ↔ (getFileInfo fname).1 ∉ pos.measurement.map pyStr)
      ∧ (lookupIod pos fname = none
          → (getIRDataFromMultipleZones fname grid pos zones).1 = none)
      ∧ ∀ i, lookupIod pos fname = some i
          → (pos.measurement.map pyStr)[i]? = some (getFileInfo fname).1
            ∧ ∀ j, j < i
              → (pos.measurement.map pyStr)[j]? ≠ some (getFileInfo fname).1 := by
  refine ⟨pyIndex_eq_none_iff, ?_, ?_⟩
  · intro h
    simp [getIRDataFromMultipleZones, h]
  · intro i hi
    rw [lookupIod] at hi
    exact pyIndex_first hi

/-- Witness for C4: the date `20170816` decoded from `cNameAbsent` is not in
`cPos`, so no record is emitted for that file. -/
theorem lookupIod_absent_spec_witness :
    (getIRDataFromMultipleZones cNameAbsent cGrid cPos
        (ZoneArg.names ["zone1"])).1 = none :=
  (lookupIod_absent_spec cPos cNameAbsent cGrid (ZoneArg.names ["zone1"])).2.1
    (by decide)

/-- C9: when every `measurement` entry of the calibration table is a string
(as the Calibration Loader produces them, so that Python's `str` fixes it),
processing a frame file with `getIRDataFromMultipleZones` returns the
calibration table unchanged: the batch-start table is immutable. -/
theorem getIRDataFromMultipleZones_positions_immutable (fname : String)
    (grid : List (List (Option ℚ))) (zones : ZoneArg) (pos : Positions)
    (h : ∀ v ∈ pos.measurement, PyVal.pstr (pyStr v) = v) :
    (getIRDataFromMultipleZones fname grid pos zones).2 = pos := by
  show updatedPositions pos = pos
  rw [updatedPositions, List.map_congr_left (fun v hv => h v hv)]
  simp

/-- Witness for C9 at a concrete input. -/
theorem getIRDataFromMultipleZones_positions_immutable_witness :
    (getIRDataFromMultipleZones cName cGrid cPos
        (ZoneArg.names ["zone1"])).2 = cPos :=
  getIRDataFromMultipleZones_positions_immutable cName cGrid
    (ZoneArg.names ["zone1"]) cPos (by decide)

/-- Function `List.any` only depends on the predicate's values on the
members. -/
theorem listAny_congr {α : Type} {p q : α → Bool} {l : List α}
    (h : ∀ a ∈ l, p a = q a) : l.any p = l.any q := by
  induction l with
  | nil => rfl
  | cons a as ih =>
    rw [List.any_cons, List.any_cons, h a (List.mem_cons_self a as),
      ih (fun x hx => h x (List.mem_cons_of_mem a hx))]

/-- Appending an all-empty trailing column to a rectangular grid does not
change which columns `dropna(axis=1, how='all')` keeps. -/
theorem keptCols_append_none (g : List (List (Option ℚ))) (w : Nat)
    (hw : ∀ row ∈ g, row.length = w) :
    keptCols (g.map (fun row => row ++ [none])) = keptCols g := by
  cases g with
  | nil => rfl
  | cons r rs =>
    have hr : r.length = w := hw r (List.mem_cons_self r rs)
    have hhead1 : ((((r :: rs).map (fun row => row ++ [none])).headD []).length)
        = w + 1 := by
      simp [hr]
    have hhead2 : (((r :: rs).headD []).length) = w := by
      simp [hr]
    rw [keptCols, keptCols, hhead1, hhead2, List.range_succ,
      List.filter_append]
    have hfalse : (((r :: rs).map (fun row => row ++ [none])).any
        (fun row => (row.getD w none).isSome)) = false := by
      rw [List.any_map, List.any_eq_false]
      intro row hrow
      simp only [Function.comp]
      rw [List.getD_eq_getElem?_getD, ← hw row hrow,
        List.getElem?_concat_length]
      simp
    have hcond : ¬ ((((r :: rs).map (fun row => row ++ [none])).any
        (fun row => (row.getD w none).isSome)) = true) := by
      rw [hfalse]
      simp
    have hlast : List.filter
        (fun j => (((r :: rs).map (fun row => row ++ [none])).any
          (fun row => (row.getD j none).isSome))) [w] = [] := by
      rw [List.filter_cons, if_neg hcond, List.filter_nil]
    rw [hlast, List.append_nil]
    apply List.filter_congr
    intro j hj
    have hjw : j < w := List.mem_range.mp hj
    rw [List.any_map]
    apply listAny_congr
    intro row hrow
    simp only [Function.comp]
    rw [List.getD_eq_getElem?_getD, List.getD_eq_getElem?_getD,
      List.getElem?_append_left (by rw [hw row hrow]; exact hjw)]

/-- Appending an all-empty trailing column to a rectangular grid leaves the
cleaned grid unchanged. -/
theorem dropAllEmptyCols_append_none (g : List (List (Option ℚ))) (w : Nat)
    (hw : ∀ row ∈ g, row.length = w) :
    dropAllEmptyCols (g.map (fun row => row ++ [none]))
      = dropAllEmptyCols g := by
  rw [dropAllEmptyCols, dropAllEmptyCols, keptCols_append_none g w hw,
    List.map_map]
  apply List.map_congr_left
  intro row hrow
  simp only [Function.comp]
  apply List.map_congr_left
  intro j hj
  have hgne : g ≠ [] := List.ne_nil_of_mem hrow
  obtain ⟨r, rs, rfl⟩ := List.exists_cons_of_ne_nil hgne
  have hjr : j < ((r :: rs).headD []).length := by
    have := List.mem_filter.mp hj
    exact List.mem_range.mp this.1
  have hjw : j < w := by
    rw [List.headD_cons, hw r (List.mem_cons_self r rs)] at hjr
    exact hjr
  rw [List.getD_eq_getElem?_getD, List.getD_eq_getElem?_getD,
    List.getElem?_append_left (by rw [hw row hrow]; exact hjw)]

/-- C8: appending one fully-empty trailing column to a rectangular frame
grid changes nothing in the output of `getIRDataFromMultipleZones`: the
aggregator drops every all-empty column before slicing, so all per-zone
statistics (indeed the whole record) are identical to those of the grid with
that column pre-removed. -/
theorem getIRDataFromMultipleZones_drops_empty_col (fname : String)
    (g : List (List (Option ℚ))) (w : Nat)
    (hw : ∀ row ∈ g, row.length = w) (pos : Positions) (zones : ZoneArg) :
    getIRDataFromMultipleZones fname (g.map (fun row => row ++ [none]))
        pos zones
      = getIRDataFromMultipleZones fname g pos zones := by
  have hproc : processedImage (g.map (fun row => row ++ [none]))
      = processedImage g := by
    rw [processedImage, processedImage, dropAllEmptyCols_append_none g w hw]
  rw [getIRDataFromMultipleZones, getIRDataFromMultipleZones, hproc]

/-- Witness for C8 at a concrete input: the 2x2 grid with an appended empty
column. -/
theorem getIRDataFromMultipleZones_drops_empty_col_witness :
    getIRDataFromMultipleZones cName
        (cGrid.map (fun row => row ++ [none])) cPos (ZoneArg.names ["zone1"])
      = getIRDataFromMultipleZones cName cGrid cPos
          (ZoneArg.names ["zone1"]) :=
  getIRDataFromMultipleZones_drops_empty_col cName cGrid 2 (by decide) cPos
    (ZoneArg.names ["zone1"])

/-- The record component of `getIRDataFromMultipleZones`, written as its
defining `Option` pipeline. -/
theorem getIRDataFromMultipleZones_fst (fname : String)
    (grid : List (List (Option ℚ))) (pos : Positions) (zones : ZoneArg) :
    (getIRDataFromMultipleZones fname grid pos zones).1
      = (do
          let iod ← lookupIod pos fname
          let image ← processedImage grid
          let zl ← iterZones zones
          let statEntries ← optMap (fun zone => do
            let t ← getIRDataFromZone image (updatedPositions pos) zone iod
            pure (zoneEntries zone t)) zl
          pure ([("ir_date", RVal.s (getFileInfo fname).1),
                 ("ir_time", RVal.s (getFileInfo fname).2.1),
                 ("ir_folder", RVal.s (getFileInfo fname).2.2.1),
                 ("ir_filenumber", RVal.s (getFileInfo fname).2.2.2)]
                ++ statEntries.flatten)) := rfl

/-- C6 counterexample: at a concrete input the record produced by
`getIRDataFromMultipleZones` holds the zone statistics under the keys
`ir_zone1_med` / `ir_zone1_mean` / `ir_zone1_std`, and holds NO key
`zone1_med` / `zone1_mean` / `zone1_std`, refuting the claim that the
scoped column names are `<zone>_med`, `<zone>_mean`, `<zone>_std`. -/
theorem record_zone_keys_counterexample :
    ((getIRDataFromMultipleZones cName cGrid cPos
        (ZoneArg.names ["zone1"])).1.map
      (fun rec => ((rec.lookup "zone1_med").isSome,
                   (rec.lookup "zone1_mean").isSome,
                   (rec.lookup "zone1_std").isSome,
                   (rec.lookup "ir_zone1_med").isSome,
                   (rec.lookup "ir_zone1_mean").isSome,
                   (rec.lookup "ir_zone1_std").isSome)))
      = some (false, false, false, true, true, true) := by decide

/-- C6 as amended: whenever `getIRDataFromMultipleZones` produces a record,
each supplied zone's three statistics are recorded under the scoped column
names `ir_<zone>_med`, `ir_<zone>_mean` and `ir_<zone>_std` (the source
prepends `"ir_"` to the zone name). -/
theorem record_zone_keys (fname : String) (grid : List (List (Option ℚ)))
    (pos : Positions) (zl : List String) (zone : String) (hz : zone ∈ zl)
    (h : ((getIRDataFromMultipleZones fname grid pos
        (ZoneArg.names zl)).1).isSome) :
    ∃ iod img t rec,
      (getIRDataFromMultipleZones fname grid pos (ZoneArg.names zl)).1
          = some rec
        ∧ lookupIod pos fname = some iod
        ∧ processedImage grid = some img
        ∧ getIRDataFromZone img (updatedPositions pos) zone iod = some t
        ∧ ("ir_" ++ zone ++ "_med", RVal.q t.1) ∈ rec
        ∧ ("ir_" ++ zone ++ "_mean", RVal.q t.2.1) ∈ rec
        ∧ ("ir_" ++ zone ++ "_std", RVal.q t.2.2) ∈ rec := by
  rw [Option.isSome_iff_exists] at h
  obtain ⟨rec, hrec⟩ := h
  have horig := hrec
  rw [getIRDataFromMultipleZones_fst] at hrec
  cases hiod : lookupIod pos fname with
  | none =>
    rw [hiod] at hrec
    simp at hrec
  | some iod =>
    rw [hiod] at hrec
    cases himg : processedImage grid with
    | none =>
      rw [himg] at hrec
      simp at hrec
    | some img =>
      rw [himg] at hrec
      simp only [iterZones, Option.bind_eq_bind, Option.some_bind] at hrec
      cases hopt : optMap
          (fun z => (getIRDataFromZone img (updatedPositions pos) z iod).bind
            (fun t => pure (zoneEntries z t))) zl with
      | none =>
        rw [hopt] at hrec
        simp at hrec
      | some es =>
        rw [hopt] at hrec
        simp only [Option.some_bind, Option.pure_def,
          Option.some.injEq] at hrec
        obtain ⟨e, he, hees⟩ := optMap_mem hopt hz
        cases ht : getIRDataFromZone img (updatedPositions pos) zone iod with
        | none =>
          rw [ht] at he
          simp at he
        | some t =>
          rw [ht] at he
          simp only [Option.some_bind, Option.pure_def,
            Option.some.injEq] at he
          refine ⟨iod, img, t, rec, horig, rfl, rfl, ht, ?_, ?_, ?_⟩
          all_goals
            rw [← hrec]
            refine List.mem_append_right _ (List.mem_flatten.mpr ⟨e, hees, ?_⟩)
            rw [← he]
            simp [zoneEntries]

/-- Witness for the amended C6 at a concrete input. -/
theorem record_zone_keys_witness :
    ∃ iod img t rec,
      (getIRDataFromMultipleZones cName cGrid cPos
          (ZoneArg.names ["zone1"])).1 = some rec
        ∧ lookupIod cPos cName = some iod
        ∧ processedImage cGrid = some img
        ∧ getIRDataFromZone img (updatedPositions cPos) "zone1" iod = some t
        ∧ ("ir_" ++ "zone1" ++ "_med", RVal.q t.1) ∈ rec
        ∧ ("ir_" ++ "zone1" ++ "_mean", RVal.q t.2.1) ∈ rec
        ∧ ("ir_" ++ "zone1" ++ "_std", RVal.q t.2.2) ∈ rec :=
  record_zone_keys cName cGrid cPos ["zone1"] "zone1" (by decide) (by decide)

/-- C3 (code bug): the committed batch driver (`AnalyzeIRData.py`) passes
the integer `numberOfZones` where `getIRDataFromMultipleZones` documents a
list of zone names; iterating over that integer raises `TypeError` on the
first file, so even a perfectly matched one-row calibration table and
one-file batch produces no aggregate output at all, instead of the one
record per file the documented behaviour promises. -/
theorem analyzeIRDataBatch_aborts :
    analyzeIRDataBatch [(cName, cGrid)] cPos 1 = none := by decide

end IRUtils
